import Mathlib

set_option allowUnsafeReducibility true

/- Concrete runs of the embedded engine are evaluated inside proofs by
kernel reduction (`decide`); the arithmetic of `ℚ` must be reducible for
that, and reducibility has no bearing on what is proved. -/
attribute [local semireducible] Rat.add Rat.mul Rat.sub Rat.div Rat.inv
  Rat.neg Rat.ofScientific

/-!
# Shallow embedding of the EDS disease-severity engine

This file embeds the day-by-day epidemiological recurrence implemented in
`eds.py`, `eds_day_one.py`, `eds_day_n.py`, `calculation_precip_score.py`,
`get_rc_res.py` and `get_spray.py` of the EDS repository, and proves or
refutes the frozen claims about it.

Conventions of the embedding:
* Machine floats are embedded as exact rationals (`ℚ`); decimal literals in
  the source (`0.173`, `0.002307`, `0.999948211789`, ...) denote the same
  decimal fractions in `ℚ`.
* Division in `ℚ` yields `0` for a zero denominator.  The source relies on
  IEEE semantics there (`inf`/`nan`); every claim below that touches a
  quotient either excludes the degenerate denominator by hypothesis or is
  evaluated at inputs where the denominator is nonzero.
* pandas/NumPy library primitives used by the source (`np.interp`,
  `Series.rolling(..).sum()`, boolean-mask indexing, `Series.__bool__`,
  Python `round`, `math.ceil`, Python negative list indexing) are embedded
  by their documented semantics.
* Failure (`raise`) is embedded with `Except String`.
-/

namespace EDS

/-- Embedding of `np.interp(q, xs, ys)` for a table given as a list of
`(x, y)` pairs: piecewise-linear interpolation, clamped to the end values
outside the table range (NumPy's documented behaviour for ascending `xs`). -/
def npInterp (q : ℚ) : List (ℚ × ℚ) → ℚ
  | [] => 0
  | [(_, y)] => y
  | (x1, y1) :: (x2, y2) :: rest =>
    if q ≤ x1 then y1
    else if q ≤ x2 then y1 + (y2 - y1) * (q - x1) / (x2 - x1)
    else npInterp q ((x2, y2) :: rest)

/-- Embedding of Python's builtin `round` on a rational: round half to even,
returning an integer (used for `round(results_day["p"])`). -/
def pyRound (q : ℚ) : ℤ :=
  let f := ⌊q⌋
  let frac := q - f
  if frac < 1 / 2 then f
  else if 1 / 2 < frac then f + 1
  else if f % 2 = 0 then f else f + 1

/-- Embedding of Python list indexing `l[i]` with an integer index:
negative indices count from the end; out-of-range access is an
`IndexError`, embedded as `none`. -/
def pyListGet (l : List α) (i : ℤ) : Option α :=
  if 0 ≤ i then l.get? i.toNat
  else if i.natAbs ≤ l.length then l.get? (l.length - i.natAbs)
  else none

/-- Embedding of `ri_series[rt_count == 0].sum()`: the two series have equal
length and align positionally, so this sums the entries of the value series
at the positions where the countdown series is exactly `0`. -/
def maskSum : List ℤ → List ℚ → ℚ
  | t :: ts, v :: vs => (if t = 0 then v else 0) + maskSum ts vs
  | _, _ => 0

/-- Sums of the complete contiguous 2-windows of a list
(`Series.rolling(2).sum()`, with the incomplete leading window dropped:
pandas emits `NaN` there and `NaN == 2` is false). -/
def rolling2 (w : List ℕ) : List ℕ :=
  List.zipWith (· + ·) w w.tail

/-- Sums of the complete contiguous 3-windows of a list
(`Series.rolling(3).sum()`, incomplete leading windows dropped). -/
def rolling3 (w : List ℕ) : List ℕ :=
  List.zipWith (· + ·) (List.zipWith (· + ·) w w.tail) w.tail.tail

/-- The `if`/`elif` cascade of `calculation_precip_score` applied to an
already-extracted rain window (rain days counted as `1`). -/
def precipCascade (w : List ℕ) : ℕ :=
  let fourDaySum := w.sum
  if fourDaySum = 0 then 1
  else if fourDaySum = 1 then 2
  else if fourDaySum = 2 then 3
  else if (rolling2 w).any (· = 2) then 3
  else if (rolling3 w).any (· = 3) then 3
  else 4

/-- Embedding of `calculation_precip_score(day, precip_occur)`
(`calculation_precip_score.py`, duplicated verbatim as
`utils.calculate_antecedent_precipitation_conditions_score`): slice the
window `iloc[(day-1):(day+3)]` out of the boolean rain series and score it.
The module `calc_rain_score.py` imported by `eds.py` is absent from the
tree; its call sites use this same function, of which the repository holds
two identical copies. -/
def calculation_precip_score (day : ℕ) (precipOccur : List Bool) : ℕ :=
  precipCascade (((precipOccur.drop (day - 1)).take 4).map (fun b => if b then 1 else 0))

/-- One row of the fungicide schedule DataFrame (`spray_number`,
`spray_moment`, `spray_eff`).  A missing (`NaN`) efficacy is `none`. -/
structure SprayEvent where
  sprayNumber : ℤ
  sprayMoment : ℚ
  sprayEff : Option ℚ
deriving DecidableEq, Repr

/-- Embedding of `bool(series)` on a pandas Series: pandas
`NDFrame.__bool__` raises `ValueError` unconditionally, for every length
(including length 1); this is what a Python chained comparison
`a < b <= c` applies to its first comparison when `a` is a Series. -/
def seriesBool (_s : List Bool) : Except String Bool :=
  Except.error "ValueError: The truth value of a Series is ambiguous"

/-- Embedding of `get_rc_res(day, fungicide, residual)` (`get_rc_res.py`).
An empty schedule has no `spray_moment` column, so the `V4` assignment
raises `KeyError`.  Otherwise the chained comparison
`fungicide["spray_moment"] < day <= fungicide["V4"]` evaluates the Series
`spray_moment < day` and takes its truth value, which raises `ValueError`
(see `seriesBool`); the code after it is unreachable but is embedded
following the intended row-wise semantics of lines 39-42. -/
def get_rc_res (day : ℚ) (fungicide : List SprayEvent) (residual : ℚ)
    (interval : ℚ) : Except String ℚ :=
  if fungicide = [] then Except.error "KeyError: spray_moment" else do
    let ltSeries := fungicide.map (fun e => decide (e.sprayMoment < day))
    let leSeries := fungicide.map (fun e => decide (day ≤ e.sprayMoment + interval))
    let b ← seriesBool ltSeries
    let flag := if b then leSeries else ltSeries
    if flag.any id then
      let effRes := (fungicide.filter
        (fun e => decide (e.sprayMoment < day ∧ day ≤ e.sprayMoment + interval))).filterMap
        (fun e => e.sprayEff)
      pure (residual * effRes.headD 0)
    else
      pure 1

/-- Embedding of `get_spray(day, daily_precipitation, fungicide)`
(`get_spray.py`): vectorized window test `m < day <= m + interval`; the
flow residual is the day's rainfall when any event is active, else `0`.
An empty schedule raises `KeyError` at the `V4` column assignment. -/
def get_spray (day : ℚ) (dailyPrecipitation : ℚ) (fungicide : List SprayEvent)
    (interval : ℚ) : Except String ℚ :=
  if fungicide = [] then Except.error "KeyError: spray_moment"
  else if fungicide.any (fun e => decide (e.sprayMoment < day ∧ day ≤ e.sprayMoment + interval))
  then pure dailyPrecipitation
  else pure 0

/-- Embedding of the `FungEffcCur` lookup of `eds_day_n.py` lines 107-112
(identical in `estimate_disease_severity.py` lines 299-304): select the
rows with `spray_moment <= day <= V4` (where `V4 = spray_moment + 7` was
materialized by `get_rc_res`/`get_spray` on day one), take `.iloc[0]` of
their `spray_eff`; an `IndexError` (no matching row) yields `1`.  The
result is `none` when the first matching row's efficacy is `NaN`. -/
def fungEffcCur (day : ℚ) (fungicide : List SprayEvent) : Option ℚ :=
  match fungicide.filter (fun e => decide (e.sprayMoment ≤ day ∧ day ≤ e.sprayMoment + 7)) with
  | [] => some 1
  | e :: _ => e.sprayEff

/-- Embedding of `results_day["RcFCur"]` (`eds_day_n.py` lines 114-118):
the current-spray efficacy with a `NaN` (`none`) replaced by `1`. -/
def rcFCur (day : ℚ) (fungicide : List SprayEvent) : ℚ :=
  (fungEffcCur day fungicide).getD 1

/-- One row of the daily weather DataFrame. -/
structure WeatherRow where
  Temperature : ℚ
  Rain : Bool
  precip : ℚ
deriving DecidableEq, Repr

/-- The per-day state dictionary `results_day` of `eds_day_one.py` /
`eds_day_n.py`, with one field per key (the fungicide-only keys are not
represented: every fungicide run fails during day-one initialisation, see
the C9 theorems, so no emitted record ever carries them). -/
structure DayRec where
  p_opt : ℚ
  ip_opt : ℚ
  Temp : ℚ
  ip : ℚ
  RRDD : ℚ
  I : ℚ
  p : ℚ
  L : ℚ
  AUDPC : ℚ
  GDUsum : ℚ
  H : ℚ
  HSEN : ℚ
  LeakI : ℚ
  LeakL : ℚ
  R : ℚ
  LAT : ℚ
  CumuLeak : ℚ
  DIS : ℚ
  TOTSITES : ℚ
  Sev : ℚ
  DVS8 : ℚ
  RAUPC : ℚ
  GDU : ℚ
  RTinc : ℚ
  SITEmax : ℚ
  RRG : ℚ
  RG : ℚ
  Rc_W : ℚ
  RRLEX : ℚ
  inocp : ℚ
  RcOpt : ℚ
  RcT : ℚ
  RcA : ℚ
  Rc : ℚ
  COFR : ℚ
  Agg : ℕ
  RRSEN : ℚ
  RSEN : ℚ
  RLEX : ℚ
  RDI : ℚ
  REM : ℚ
  RT : ℚ
  RDL : ℚ

/-- The pure part of day-1 initialisation (`eds_day_one.py`), given the
already-computed fungicide factor `fung_prod` (`RcFCur * FungEffecRes`,
which is `1` when `is_fungicide` is false): builds the day-1 record and
writes `RI[0]`. -/
def dayOneRecord (weather : List WeatherRow)
    (ip_t_cof p_t_cof rc_t_input dvs_8_input rc_a_input : List (ℚ × ℚ))
    (p_opt inocp rrlex_par rc_opt_par ip_opt : ℚ) (ri_series : List ℚ)
    (fung_prod : ℚ) : DayRec × List ℚ :=
  let day : ℕ := 1
  let row0 := (weather.get? 0).getD ⟨0, false, 0⟩
  let Temp := row0.Temperature
  let ip := ip_opt * npInterp Temp ip_t_cof
  let RRDD : ℚ := 0.0001
  let I := ip
  let p := p_opt / npInterp Temp p_t_cof
  let L : ℚ := 0
  let AUDPC : ℚ := 0
  let GDUsum : ℚ := 0
  let H : ℚ := 2500000
  let HSEN : ℚ := 0
  let LeakI : ℚ := 0
  let LeakL : ℚ := 0
  let R : ℚ := 0
  let LAT : ℚ := 0
  let CumuLeak := LeakL + LeakI
  let DIS := R + I + CumuLeak + L
  let TOTSITES := HSEN + H + DIS
  let Sev := DIS / TOTSITES
  let DVS8 := npInterp GDUsum dvs_8_input
  let RAUPC := if DVS8 < 7 then Sev else 0
  let GDU := Temp - 14
  let RTinc := GDU
  let SITEmax : ℚ := 10000000
  let RRG : ℚ := 0.173
  let RG := RRG * H * (1 - TOTSITES / SITEmax)
  let Rc_W : ℚ := (calculation_precip_score day (weather.map (fun w => w.Rain)) : ℚ)
  let RRLEX := rrlex_par
  let RcOpt := rc_opt_par - RRLEX
  let RcT := npInterp Temp rc_t_input
  let RcA := npInterp DVS8 rc_a_input
  let Rc := RcOpt * RcT * RcA * Rc_W * fung_prod
  let COFR := 1 - DIS / (2 * H)
  let Agg : ℕ := 1
  let ri2 := ri_series.set (day - 1) (Rc * I * COFR ^ Agg + 1)
  let RRSEN : ℚ := 0.002307
  let RSEN := RRDD + RRSEN * H
  let RLEX := RRLEX * I * COFR
  let RDI : ℚ := 0.000100004821661
  let REM : ℚ := 0.999948211789
  let RT : ℚ := 0
  let RDL : ℚ := 0
  ({ p_opt := p_opt, ip_opt := ip_opt, Temp := Temp, ip := ip,
     RRDD := RRDD, I := I, p := p, L := L, AUDPC := AUDPC,
     GDUsum := GDUsum, H := H, HSEN := HSEN, LeakI := LeakI,
     LeakL := LeakL, R := R, LAT := LAT, CumuLeak := CumuLeak,
     DIS := DIS, TOTSITES := TOTSITES, Sev := Sev, DVS8 := DVS8,
     RAUPC := RAUPC, GDU := GDU, RTinc := RTinc, SITEmax := SITEmax,
     RRG := RRG, RG := RG, Rc_W := Rc_W, RRLEX := RRLEX,
     inocp := inocp, RcOpt := RcOpt, RcT := RcT, RcA := RcA,
     Rc := Rc, COFR := COFR, Agg := Agg, RRSEN := RRSEN,
     RSEN := RSEN, RLEX := RLEX, RDI := RDI, REM := REM, RT := RT,
     RDL := RDL }, ri2)

/-- Embedding of `eds_day_one` (`eds_day_one.py`): day-1 initialisation.
When `is_fungicide` is set, `FungEffecRes = get_rc_res(1, fungicide,
Residual)` is evaluated first (line 134, with `Residual = ResSpray = 0`)
and `FlowRes = get_spray(1, precip, fungicide)` afterwards (line 169);
either failure aborts the whole initialisation, exactly as the raised
exception does.  `RcFCur = 1` on day one, so the fungicide factor is
`1 * FungEffecRes`. -/
def eds_day_one (weather : List WeatherRow)
    (ip_t_cof p_t_cof rc_t_input dvs_8_input rc_a_input : List (ℚ × ℚ))
    (p_opt inocp rrlex_par rc_opt_par ip_opt : ℚ) (ri_series : List ℚ)
    (is_fungicide : Bool) (fungicide : List SprayEvent) :
    Except String (DayRec × List ℚ) := do
  let fung_prod ← if is_fungicide then
      (get_rc_res 1 fungicide 0 7).map (fun fer => (1 : ℚ) * fer)
    else pure (1 : ℚ)
  let _FlowRes ← if is_fungicide then
      get_spray 1 (((weather.get? 0).getD ⟨0, false, 0⟩).precip) fungicide 7
    else pure (0 : ℚ)
  pure (dayOneRecord weather ip_t_cof p_t_cof rc_t_input dvs_8_input
    rc_a_input p_opt inocp rrlex_par rc_opt_par ip_opt ri_series fung_prod)

/-- The `REM` update of `eds_day_n.py` lines 169-174: once `day` exceeds
today's incubation period `ip`, `REM` is re-read from the `RT` of the
history record at Python index `ceil(day - ip) - 2` (the `-2` branch
applies whenever `day - 1 == len(results_list)`, which is always the case
in the `eds` loop), else at `ceil(day - ip) - 1`; a Python `IndexError`
aborts the run.  If `day <= ip`, `REM` keeps yesterday's value. -/
def remLookup (day : ℕ) (ip prevREM : ℚ) (results_list : List DayRec) :
    Except String ℚ :=
  if (day : ℚ) > ip then
    match pyListGet results_list
      (⌈(day : ℚ) - ip⌉ - (if day - 1 = results_list.length then 2 else 1)) with
    | some past => Except.ok past.RT
    | none => Except.error "IndexError: list index out of range"
  else Except.ok prevREM

/-- The pure part of the day-N update (`eds_day_n.py`), given the
already-computed `REM` value: builds the day-`day` record, writes
`RI[day-1]`, stamps `rt_count[day-1] = round(p)`, sums the graduating
cohorts into `RT` and decrements the countdown array. -/
def dayNRecord (weather : List WeatherRow)
    (ip_t_cof p_t_cof rc_t_input dvs_8_input rc_a_input : List (ℚ × ℚ))
    (p_opt inocp ip_opt : ℚ) (day : ℕ) (prev : DayRec) (ri_series : List ℚ)
    (rt_count : List ℤ) (REM : ℚ) : DayRec × List ℚ × List ℤ :=
  let H := prev.H + prev.RG - (ri_series.get? (day - 2)).getD 0 - prev.RSEN - prev.RLEX
  let HSEN := prev.HSEN + prev.RSEN
  let LeakI := prev.LeakI + prev.RDI
  let LeakL := prev.LeakL + prev.RDL
  let R := prev.R + prev.REM
  let Temp := ((weather.get? (day - 1)).getD ⟨0, false, 0⟩).Temperature
  let ip := ip_opt * npInterp Temp ip_t_cof
  let p := p_opt / npInterp Temp p_t_cof
  let CumuLeak := LeakL + LeakI
  let DIS := R + prev.I + CumuLeak + prev.L
  let TOTSITES := HSEN + H + DIS
  let Sev := DIS / TOTSITES
  let DVS8 := npInterp prev.GDUsum dvs_8_input
  let RAUPC := if DVS8 < 7 then Sev else 0
  let GDU := Temp - 14
  let RTinc := GDU
  let RG := prev.RRG * H * (1 - TOTSITES / prev.SITEmax)
  let Rc_W : ℚ := (calculation_precip_score day (weather.map (fun w => w.Rain)) : ℚ)
  let RcT := npInterp Temp rc_t_input
  let RcA := npInterp DVS8 rc_a_input
  let fung_prod : ℚ := 1
  let Rc := prev.RcOpt * RcT * RcA * Rc_W * fung_prod
  let start := if day > 10 then inocp else 0
  let COFR := 1 - DIS / (DIS + H)
  let ri2 := ri_series.set (day - 1) (Rc * prev.I * COFR ^ prev.Agg + start)
  let RSEN := prev.RRDD + prev.RRSEN * H
  let RLEX := prev.RRLEX * prev.I * COFR
  let RDI := prev.I * prev.RRDD
  let RDL := prev.L * prev.RRDD
  let rt2 := rt_count.set (day - 1) (pyRound p)
  let RT := maskSum rt2 ri2
  let rt3 := rt2.map (fun t => t - 1)
  ({ p_opt := prev.p_opt, ip_opt := prev.ip_opt, Temp := Temp,
     ip := ip, RRDD := prev.RRDD, I := prev.I, p := p, L := prev.L,
     AUDPC := prev.AUDPC, GDUsum := prev.GDUsum, H := H,
     HSEN := HSEN, LeakI := LeakI, LeakL := LeakL, R := R,
     LAT := prev.LAT, CumuLeak := CumuLeak, DIS := DIS,
     TOTSITES := TOTSITES, Sev := Sev, DVS8 := DVS8,
     RAUPC := RAUPC, GDU := GDU, RTinc := RTinc,
     SITEmax := prev.SITEmax, RRG := prev.RRG, RG := RG,
     Rc_W := Rc_W, RRLEX := prev.RRLEX, inocp := prev.inocp,
     RcOpt := prev.RcOpt, RcT := RcT, RcA := RcA, Rc := Rc,
     COFR := COFR, Agg := prev.Agg, RRSEN := prev.RRSEN,
     RSEN := RSEN, RLEX := RLEX, RDI := RDI, REM := REM, RT := RT,
     RDL := RDL }, ri2, rt3)

/-- Embedding of `eds_day_n` (`eds_day_n.py`) on the `is_fungicide=False`
path, which is the only path reachable from `eds`: the fungicide-only
block (lines 106-132 and 176-179) is guarded by `is_fungicide`, and every
fungicide run already fails during day-one initialisation (C9 theorems);
that block is embedded separately as `fungEffcCur`/`rcFCur`/`get_spray`.
`prev` is `results_day` as mutated by the carry-forward in the `eds` loop;
the function returns the new record (which the caller appends), the
updated `ri_series` and the updated `rt_count`. -/
def eds_day_n (weather : List WeatherRow)
    (ip_t_cof p_t_cof rc_t_input dvs_8_input rc_a_input : List (ℚ × ℚ))
    (p_opt inocp ip_opt : ℚ) (day : ℕ) (prev : DayRec) (ri_series : List ℚ)
    (results_list : List DayRec) (rt_count : List ℤ) :
    Except String (DayRec × List ℚ × List ℤ) :=
  let Temp := ((weather.get? (day - 1)).getD ⟨0, false, 0⟩).Temperature
  let ip := ip_opt * npInterp Temp ip_t_cof
  (remLookup day ip prev.REM results_list).map
    (dayNRecord weather ip_t_cof p_t_cof rc_t_input dvs_8_input rc_a_input
      p_opt inocp ip_opt day prev ri_series rt_count)

/-- The cutoff record of `eds.py` lines 176-182: every output column is
zeroed except the four cumulative fields `I`, `L`, `AUDPC`, `GDUsum`,
which keep the values already carried forward into `prev`. -/
def cutoffZero (prev : DayRec) : DayRec :=
  { p_opt := 0, ip_opt := 0, Temp := 0, ip := 0, RRDD := 0, I := prev.I,
    p := 0, L := prev.L, AUDPC := prev.AUDPC, GDUsum := prev.GDUsum,
    H := 0, HSEN := 0, LeakI := 0, LeakL := 0, R := 0, LAT := 0,
    CumuLeak := 0, DIS := 0, TOTSITES := 0, Sev := 0, DVS8 := 0,
    RAUPC := 0, GDU := 0, RTinc := 0, SITEmax := 0, RRG := 0, RG := 0,
    Rc_W := 0, RRLEX := 0, inocp := 0, RcOpt := 0, RcT := 0, RcA := 0,
    Rc := 0, COFR := 0, Agg := 0, RRSEN := 0, RSEN := 0, RLEX := 0,
    RDI := 0, REM := 0, RT := 0, RDL := 0 }

/-- The carry-forward performed at the top of the `else` branch of the
`eds` loop (`eds.py` lines 159-174): yesterday's record accumulates
`I`, `L`, `AUDPC` and `GDUsum` for today. -/
def carryForward (prev : DayRec) (ri_series : List ℚ) (day : ℕ) : DayRec :=
  { prev with
    I := prev.I + (prev.RT + prev.RLEX - prev.REM - prev.RDI),
    L := prev.L + ((ri_series.get? (day - 2)).getD 0 - prev.RT - prev.RDL),
    AUDPC := prev.AUDPC + prev.RAUPC,
    GDUsum := prev.GDUsum + prev.RTinc }

/-- The `for day in range(1, total_days - 2)` loop of `eds` from day 2 on,
as a recursion on the number of remaining iterations.  `day - 1` is
returned when the range is exhausted (the Python loop variable keeps its
last value); on cutoff (`day > days_after_planting`) the zeroed final
record is appended and the loop breaks reporting `day`.  (The Python-side
truncation `rt_count = rt_count[:len(results_list)+1]` at the cutoff only
touches `rt_count`, which is not part of the function's result.) -/
def edsLoop (weather : List WeatherRow)
    (ip_t_cof p_t_cof rc_t_input dvs_8_input rc_a_input : List (ℚ × ℚ))
    (p_opt inocp ip_opt : ℚ) (days_after_planting : ℕ) :
    ℕ → ℕ → DayRec → List DayRec → List ℚ → List ℤ →
    Except String (List DayRec × List ℚ × ℕ)
  | 0, day, _prev, results, ri, _rt => Except.ok (results, ri, day - 1)
  | rem + 1, day, prev, results, ri, rt =>
    let prev2 := carryForward prev ri day
    if day > days_after_planting then
      Except.ok (results ++ [cutoffZero prev2], ri, day)
    else
      (eds_day_n weather ip_t_cof p_t_cof rc_t_input dvs_8_input rc_a_input
        p_opt inocp ip_opt day prev2 ri results rt).bind (fun out =>
      edsLoop weather ip_t_cof p_t_cof rc_t_input dvs_8_input rc_a_input
        p_opt inocp ip_opt days_after_planting rem (day + 1) out.1
        (results ++ [out.1]) out.2.1 out.2.2)

/-- Embedding of `eds` (`eds.py`): runs day-one initialisation followed by
the day-N loop over `range(1, total_days - 2)`.  With fewer than 4 weather
rows the range is empty, the loop variable `day` is never bound, and the
final `return results, day` raises `UnboundLocalError`.  Returns the
emitted records, the final `RI` series and the final day index. -/
def eds (weather : List WeatherRow)
    (ip_t_cof p_t_cof rc_t_input dvs_8_input rc_a_input : List (ℚ × ℚ))
    (p_opt inocp rrlex_par rc_opt_par ip_opt : ℚ) (is_fungicide : Bool)
    (fungicide : List SprayEvent) (_fungicide_residual : List (ℚ × ℚ))
    (days_after_planting : ℕ) : Except String (List DayRec × List ℚ × ℕ) :=
  let total_days := weather.length
  if total_days < 4 then
    Except.error "UnboundLocalError: local variable day referenced before assignment"
  else
    (eds_day_one weather ip_t_cof p_t_cof rc_t_input dvs_8_input rc_a_input
      p_opt inocp rrlex_par rc_opt_par ip_opt (List.replicate total_days 0)
      is_fungicide fungicide).bind (fun one =>
    edsLoop weather ip_t_cof p_t_cof rc_t_input dvs_8_input rc_a_input
      p_opt inocp ip_opt days_after_planting (total_days - 4) 2 one.1 [one.1]
      one.2 (List.replicate total_days (0 : ℤ)))

/-- The record list of a run result (empty when the run failed). -/
def runRecords (r : Except String (List DayRec × List ℚ × ℕ)) : List DayRec :=
  match r with
  | Except.ok out => out.1
  | Except.error _ => []

/-- The final `RI` series of a run result. -/
def runRI (r : Except String (List DayRec × List ℚ × ℕ)) : List ℚ :=
  match r with
  | Except.ok out => out.2.1
  | Except.error _ => []

/-- The final day index of a run result. -/
def runDay (r : Except String (List DayRec × List ℚ × ℕ)) : ℕ :=
  match r with
  | Except.ok out => out.2.2
  | Except.error _ => 0

/-- Constant benign weather: `n` days at 20 °C, no rain. -/
def mkConstWeather (n : ℕ) : List WeatherRow :=
  List.replicate n ⟨20, false, 0⟩

/-- A constant-1 two-point lookup table (valid: `x` strictly ascending). -/
def tUnit : List (ℚ × ℚ) := [(0, 1), (50, 1)]

/-- A constant-0 two-point lookup table (keeps `DVS8 = 0`). -/
def tFlat : List (ℚ × ℚ) := [(0, 0), (100000, 0)]

/-- A constant-1 canopy-age table over the `DVS8` range. -/
def tAge : List (ℚ × ℚ) := [(0, 1), (7, 1)]

/-- A 5-day benign run: `p = p_opt = 5` exactly on every day (so every
cohort's rounded latent period is 5), `Rc = 0` (so `RI` is `1` on day one
and `0` afterwards), no fungicide, no cutoff. -/
def runBase : Except String (List DayRec × List ℚ × ℕ) :=
  eds (mkConstWeather 5) tUnit tUnit tUnit tFlat tAge 5 10 0 0 100 false [] [] 140

/-- The 10-day extension of `runBase`: seven simulated days. -/
def runTen : Except String (List DayRec × List ℚ × ℕ) :=
  eds (mkConstWeather 10) tUnit tUnit tUnit tFlat tAge 5 10 0 0 100 false [] [] 140

/-- A 7-day run with `days_after_planting = 2`: the cutoff fires on day 3
and the zeroed final record is emitted. -/
def runCut : Except String (List DayRec × List ℚ × ℕ) :=
  eds (mkConstWeather 7) tUnit tUnit tUnit tFlat tAge 5 10 0 0 100 false [] [] 2

/-- A 5-day run with an extreme (but legal) canopy rate
`rc_opt_par = 1000000`: the day-1 infection incidence exceeds the healthy
pool, `H` goes negative on day 2, and `Sev` leaves `[0, 1]` without
`TOTSITES` or `H` ever being exactly `0`. -/
def runHot : Except String (List DayRec × List ℚ × ℕ) :=
  eds (mkConstWeather 5) tUnit tUnit tUnit tFlat tAge 5 10 0 1000000 14 false [] [] 140

/-- The value of the latency countdown slot `j` (0-based) on entry to
iteration `day` of the loop, for a run whose every cohort was stamped with
a rounded latent period of `5`: slot `j ∈ [1, day-2]` was set to `5` on
day `j+1` and has been decremented on each of days `j+1 .. day-1`; slot
`0` was never stamped (day one does not touch the array) and the slots of
future days are untouched zeros, all decremented once per elapsed day-N
iteration. -/
def latencySlotSpec (day j : ℕ) : ℤ :=
  if 1 ≤ j ∧ j ≤ day - 2 then (6 + j : ℤ) - day else 2 - day

/-! ## C6: the precipitation score -/

/-- Score of a 4-day window written exactly as the claim states it: `1` if
the window sum is `0`, `2` if it is `1`, `3` if it is `2`, `3` if it is at
least `3` and some contiguous 2-day sum equals `2` or some contiguous
3-day sum equals `3`, otherwise `4`. -/
def precipSpecScore (w0 w1 w2 w3 : Bool) : ℕ :=
  let n : Bool → ℕ := fun b => if b then 1 else 0
  let S4 := n w0 + n w1 + n w2 + n w3
  if S4 = 0 then 1
  else if S4 = 1 then 2
  else if S4 = 2 then 3
  else if 3 ≤ S4 ∧
      ((n w0 + n w1 = 2 ∨ n w1 + n w2 = 2 ∨ n w2 + n w3 = 2) ∨
       (n w0 + n w1 + n w2 = 3 ∨ n w1 + n w2 + n w3 = 3)) then 3
  else 4

/-- C6 (confirmed).  For every day index and boolean rain sequence that
covers the 4-day window starting at that day, `calculation_precip_score`
returns exactly the score described by the claim, and the five literal
window cases score as listed: `[0,0,0,0] → 1`, `[1,0,0,0] → 2`,
`[1,1,0,0] → 3`, `[1,0,0,1] → 3`, `[1,1,1,1] → 3`. -/
theorem claim_C6 (day : ℕ) (seq : List Bool) (w0 w1 w2 w3 : Bool)
    (hwin : (seq.drop (day - 1)).take 4 = [w0, w1, w2, w3]) :
    calculation_precip_score day seq = precipSpecScore w0 w1 w2 w3 ∧
    calculation_precip_score 1 [false, false, false, false] = 1 ∧
    calculation_precip_score 1 [true, false, false, false] = 2 ∧
    calculation_precip_score 1 [true, true, false, false] = 3 ∧
    calculation_precip_score 1 [true, false, false, true] = 3 ∧
    calculation_precip_score 1 [true, true, true, true] = 3 := by
  refine ⟨?_, by decide, by decide, by decide, by decide, by decide⟩
  unfold calculation_precip_score
  rw [hwin]
  cases w0 <;> cases w1 <;> cases w2 <;> cases w3 <;> decide

/-- Witness for C6 at a concrete day and rain sequence. -/
theorem claim_C6_witness :
    ((([true, true, false, false, true] : List Bool).drop (2 - 1)).take 4
      = [true, false, false, true]) ∧
    calculation_precip_score 2 [true, true, false, false, true]
      = precipSpecScore true false false true :=
  ⟨by decide, (claim_C6 2 [true, true, false, false, true]
    true false false true (by decide)).1⟩

/-! ## C7: the rate interpolator -/

/-- `npInterp` on a list headed by `(x0, y0)` clamps to `y0` for every
query `q ≤ x0`. -/
theorem npInterp_head_clamp (q x0 y0 : ℚ) (rest : List (ℚ × ℚ))
    (hq : q ≤ x0) : npInterp q ((x0, y0) :: rest) = y0 := by
  cases rest with
  | nil => rfl
  | cons p r =>
    obtain ⟨x2, y2⟩ := p
    simp [npInterp, if_pos hq]

/-- `npInterp` clamps to the last `y` for every query at or above the last
`x` of a strictly ascending table. -/
theorem npInterp_last_clamp (q : ℚ) :
    ∀ (pts : List (ℚ × ℚ)), List.Pairwise (fun a b => a.1 < b.1) pts →
    ∀ xn yn, pts.getLast? = some (xn, yn) → xn ≤ q →
    npInterp q pts = yn := by
  intro pts
  induction pts with
  | nil => intro _ xn yn h; simp at h
  | cons p1 tail ih =>
    intro hs xn yn hlast hq
    obtain ⟨x1, y1⟩ := p1
    cases tail with
    | nil =>
      simp only [List.getLast?_singleton, Option.some.injEq, Prod.mk.injEq] at hlast
      simp only [npInterp]
      exact hlast.2
    | cons p2 rest =>
      obtain ⟨x2, y2⟩ := p2
      rw [List.getLast?_cons_cons] at hlast
      have hmem : (xn, yn) ∈ (x2, y2) :: rest := List.mem_of_mem_getLast? hlast
      have hx1n : x1 < xn := (List.pairwise_cons.mp hs).1 _ hmem
      have hnq1 : ¬ q ≤ x1 := not_le.mpr (lt_of_lt_of_le hx1n hq)
      by_cases hq2 : q ≤ x2
      · rcases List.mem_cons.mp hmem with heq | hmem2
        · rw [Prod.mk.injEq] at heq
          obtain ⟨hxx, hyy⟩ := heq
          have hqx2 : q = x2 := le_antisymm hq2 (hxx ▸ hq)
          have hx12 : x1 < x2 :=
            (List.pairwise_cons.mp hs).1 (x2, y2) (List.mem_cons_self _ _)
          have hne : x2 - x1 ≠ 0 := sub_ne_zero.mpr (ne_of_gt hx12)
          simp only [npInterp]
          rw [if_neg hnq1, if_pos hq2, hqx2, ← hyy]
          field_simp
        · have hx2n : x2 < xn := (List.pairwise_cons.mp hs.of_cons).1 _ hmem2
          exact absurd (le_trans hq hq2) (not_le.mpr hx2n)
      · simp only [npInterp]
        rw [if_neg hnq1, if_neg hq2]
        exact ih hs.of_cons xn yn hlast hq

/-- `npInterp` on a strictly ascending table, for a query bracketed by two
adjacent table points, is the linear interpolation between them. -/
theorem npInterp_bracket (q : ℚ) :
    ∀ (pts : List (ℚ × ℚ)), List.Pairwise (fun a b => a.1 < b.1) pts →
    ∀ i x1 y1 x2 y2, pts.get? i = some (x1, y1) →
    pts.get? (i + 1) = some (x2, y2) → x1 ≤ q → q ≤ x2 →
    npInterp q pts = y1 + (y2 - y1) * (q - x1) / (x2 - x1) := by
  intro pts
  induction pts with
  | nil => intro _ i x1 y1 x2 y2 h; simp at h
  | cons p1 tail ih =>
    intro hs i x1 y1 x2 y2 hg1 hg2 hq1 hq2
    obtain ⟨a1, b1⟩ := p1
    cases i with
    | zero =>
      simp only [List.get?_cons_zero, Option.some.injEq, Prod.mk.injEq] at hg1
      obtain ⟨ha1, hb1⟩ := hg1
      rw [List.get?_cons_succ] at hg2
      cases tail with
      | nil => simp at hg2
      | cons p2 rest =>
        obtain ⟨a2, b2⟩ := p2
        simp only [List.get?_cons_zero, Option.some.injEq, Prod.mk.injEq] at hg2
        obtain ⟨ha2, hb2⟩ := hg2
        have hx12 : a1 < a2 :=
          (List.pairwise_cons.mp hs).1 (a2, b2) (List.mem_cons_self _ _)
        have hne : a2 - a1 ≠ 0 := sub_ne_zero.mpr (ne_of_gt hx12)
        rw [← ha1, ← hb1, ← ha2, ← hb2]
        rw [← ha1] at hq1
        rw [← ha2] at hq2
        simp only [npInterp]
        by_cases h1 : q ≤ a1
        · have hqe : q = a1 := le_antisymm h1 hq1
          rw [if_pos h1, hqe, sub_self, mul_zero, zero_div, add_zero]
        · rw [if_neg h1, if_pos hq2]
    | succ j =>
      rw [List.get?_cons_succ] at hg1 hg2
      cases tail with
      | nil => simp at hg1
      | cons p2 rest =>
        obtain ⟨a2, b2⟩ := p2
        have hmem1 : (x1, y1) ∈ (a2, b2) :: rest := List.get?_mem hg1
        have hlt1 : a1 < x1 := (List.pairwise_cons.mp hs).1 (x1, y1) hmem1
        have hnq1 : ¬ q ≤ a1 := not_le.mpr (lt_of_lt_of_le hlt1 hq1)
        by_cases hqa2 : q ≤ a2
        · cases j with
          | zero =>
            simp only [List.get?_cons_zero, Option.some.injEq, Prod.mk.injEq] at hg1
            obtain ⟨ha2x, hb2y⟩ := hg1
            have hq1a : a2 ≤ q := by rw [ha2x]; exact hq1
            have hqe : q = a2 := le_antisymm hqa2 hq1a
            have hlt1a : a1 < a2 := by rw [ha2x]; exact hlt1
            have hne : a2 - a1 ≠ 0 := sub_ne_zero.mpr (ne_of_gt hlt1a)
            rw [← ha2x, ← hb2y]
            simp only [npInterp]
            rw [if_neg hnq1, if_pos hqa2, hqe, sub_self, mul_zero, zero_div,
              add_zero, mul_div_assoc, div_self hne, mul_one]
            ring
          | succ k =>
            exfalso
            rw [List.get?_cons_succ] at hg1
            have hmem1r : (x1, y1) ∈ rest := List.get?_mem hg1
            have hlt2 : a2 < x1 :=
              (List.pairwise_cons.mp hs.of_cons).1 (x1, y1) hmem1r
            linarith
        · simp only [npInterp]
          rw [if_neg hnq1, if_neg hqa2]
          exact ih hs.of_cons j x1 y1 x2 y2 hg1 hg2 hq1 hq2

/-- C7 (confirmed).  For every lookup table with at least two points whose
`x` column is strictly ascending and every query `q`: queries at or below
the minimum `x` return the first `y` (clamping), queries at or above the
maximum `x` return the last `y` (clamping), and queries bracketed by two
adjacent points return the linear interpolation between them; in
particular, on the table `{(0,0),(10,1)}`, query `5` returns `1/2`, query
`-5` returns `0` and query `20` returns `1`. -/
theorem claim_C7 (pts : List (ℚ × ℚ)) (q : ℚ) (_hlen : 2 ≤ pts.length)
    (hsort : List.Pairwise (fun a b => a.1 < b.1) pts) :
    (∀ x0 y0, pts.head? = some (x0, y0) → q ≤ x0 → npInterp q pts = y0) ∧
    (∀ xn yn, pts.getLast? = some (xn, yn) → xn ≤ q → npInterp q pts = yn) ∧
    (∀ i x1 y1 x2 y2, pts.get? i = some (x1, y1) →
      pts.get? (i + 1) = some (x2, y2) → x1 ≤ q → q ≤ x2 →
      npInterp q pts = y1 + (y2 - y1) * (q - x1) / (x2 - x1)) ∧
    npInterp 5 [(0, 0), (10, 1)] = 1 / 2 ∧
    npInterp (-5) [(0, 0), (10, 1)] = 0 ∧
    npInterp 20 [(0, 0), (10, 1)] = 1 := by
  refine ⟨?_, ?_, ?_, by decide, by decide, by decide⟩
  · intro x0 y0 hhead hq
    cases pts with
    | nil => simp at hhead
    | cons p r =>
      simp only [List.head?_cons, Option.some.injEq] at hhead
      rw [hhead]
      exact npInterp_head_clamp q x0 y0 r hq
  · intro xn yn hlast hq
    exact npInterp_last_clamp q pts hsort xn yn hlast hq
  · intro i x1 y1 x2 y2 hg1 hg2 hq1 hq2
    exact npInterp_bracket q pts hsort i x1 y1 x2 y2 hg1 hg2 hq1 hq2

/-- Witness for C7 at the table `{(0,0),(10,1)}` and query `5`: length and
sortedness hold, and the bracketing clause yields `1/2`. -/
theorem claim_C7_witness :
    (2 ≤ ([(0, 0), (10, 1)] : List (ℚ × ℚ)).length) ∧
    List.Pairwise (fun a b : ℚ × ℚ => a.1 < b.1) [(0, 0), (10, 1)] ∧
    npInterp 5 [(0, 0), (10, 1)] = 1 / 2 := by
  refine ⟨by decide, by decide, ?_⟩
  exact (claim_C7 [(0, 0), (10, 1)] 5 (by decide) (by decide)).2.2.2.1

/-! ## Plumbing lemmas for the engine -/

/-- Reduction of `bind` on a successful `Except`. -/
theorem exceptBind_ok {α β : Type} (a : α) (f : α → Except String β) :
    (Except.ok a).bind f = f a := rfl

/-- Reduction of `bind` on a failed `Except`. -/
theorem exceptBind_error {α β : Type} (e : String) (f : α → Except String β) :
    (Except.error e : Except String α).bind f = Except.error e := rfl

/-- Without fungicide, day-one initialisation always succeeds and produces
exactly `dayOneRecord` with fungicide factor `1`. -/
theorem eds_day_one_false (weather : List WeatherRow)
    (t1 t2 t3 t4 t5 : List (ℚ × ℚ)) (po ino rl rc ipo : ℚ) (ri : List ℚ)
    (fung : List SprayEvent) :
    eds_day_one weather t1 t2 t3 t4 t5 po ino rl rc ipo ri false fung =
      Except.ok (dayOneRecord weather t1 t2 t3 t4 t5 po ino rl rc ipo ri 1) := rfl

/-- A successful day-N step is exactly `dayNRecord` at the `REM` value
delivered by `remLookup`. -/
theorem eds_day_n_ok (weather : List WeatherRow)
    (t1 t2 t3 t4 t5 : List (ℚ × ℚ)) (po ino ipo : ℚ) (day : ℕ)
    (prev : DayRec) (ri : List ℚ) (results : List DayRec) (rt : List ℤ)
    (out : DayRec × List ℚ × List ℤ)
    (h : eds_day_n weather t1 t2 t3 t4 t5 po ino ipo day prev ri results rt
      = Except.ok out) :
    ∃ REMv, remLookup day
        (ipo * npInterp (((weather.get? (day - 1)).getD ⟨0, false, 0⟩).Temperature) t1)
        prev.REM results = Except.ok REMv ∧
      out = dayNRecord weather t1 t2 t3 t4 t5 po ino ipo day prev ri rt REMv := by
  replace h : Except.map
      (dayNRecord weather t1 t2 t3 t4 t5 po ino ipo day prev ri rt)
      (remLookup day
        (ipo * npInterp (((weather.get? (day - 1)).getD ⟨0, false, 0⟩).Temperature) t1)
        prev.REM results) = Except.ok out := h
  cases hr : remLookup day
      (ipo * npInterp (((weather.get? (day - 1)).getD ⟨0, false, 0⟩).Temperature) t1)
      prev.REM results with
  | error e => rw [hr] at h; simp [Except.map] at h
  | ok REMv =>
    rw [hr] at h
    simp only [Except.map, Except.ok.injEq] at h
    exact ⟨REMv, rfl, h.symm⟩

/-- Every successful tail of the day loop extends the record list already
accumulated: the output records are `results ++ suffix`. -/
theorem edsLoop_prefix (weather : List WeatherRow)
    (t1 t2 t3 t4 t5 : List (ℚ × ℚ)) (po ino ipo : ℚ) (dap : ℕ) :
    ∀ (rem day : ℕ) (prev : DayRec) (results : List DayRec) (ri : List ℚ)
      (rt : List ℤ) (recs : List DayRec) (riF : List ℚ) (dF : ℕ),
    edsLoop weather t1 t2 t3 t4 t5 po ino ipo dap rem day prev results ri rt
      = Except.ok (recs, riF, dF) →
    ∃ suffix, recs = results ++ suffix := by
  intro rem
  induction rem with
  | zero =>
    intro day prev results ri rt recs riF dF h
    simp only [edsLoop, Except.ok.injEq, Prod.mk.injEq] at h
    exact ⟨[], by rw [← h.1, List.append_nil]⟩
  | succ rem ih =>
    intro day prev results ri rt recs riF dF h
    simp only [edsLoop] at h
    by_cases hc : day > dap
    · rw [if_pos hc] at h
      simp only [Except.ok.injEq, Prod.mk.injEq] at h
      exact ⟨[cutoffZero (carryForward prev ri day)], h.1.symm⟩
    · rw [if_neg hc] at h
      cases hdn : eds_day_n weather t1 t2 t3 t4 t5 po ino ipo day
          (carryForward prev ri day) ri results rt with
      | error e => rw [hdn, exceptBind_error] at h; exact absurd h (by simp)
      | ok out =>
        rw [hdn, exceptBind_ok] at h
        obtain ⟨suffix, hsuf⟩ := ih (day + 1) out.1 (results ++ [out.1])
          out.2.1 out.2.2 recs riF dF h
        exact ⟨out.1 :: suffix, by rw [hsuf, List.append_assoc]; rfl⟩

/-! ## C8: too little weather -/

/-- C8 (confirmed).  With fewer than 4 weather rows the loop bound
`range(1, total_days - 2)` is empty, so the loop variable `day` is never
bound and the run aborts with an error (Python raises `UnboundLocalError`
at `return results, day`); no silent empty result is returned. -/
theorem claim_C8 (weather : List WeatherRow) (t1 t2 t3 t4 t5 : List (ℚ × ℚ))
    (po ino rl rc ipo : ℚ) (isf : Bool) (fung : List SprayEvent)
    (fresid : List (ℚ × ℚ)) (dap : ℕ) (hshort : weather.length < 4) :
    eds weather t1 t2 t3 t4 t5 po ino rl rc ipo isf fung fresid dap =
      Except.error "UnboundLocalError: local variable day referenced before assignment" := by
  unfold eds
  rw [if_pos hshort]

/-- Witness for C8: a 3-row weather table is rejected with the error. -/
theorem claim_C8_witness :
    (List.replicate 3 (⟨20, false, 0⟩ : WeatherRow)).length < 4 ∧
    eds (List.replicate 3 ⟨20, false, 0⟩) [] [] [] [] [] 5 10 0 0 14 false [] [] 140 =
      Except.error "UnboundLocalError: local variable day referenced before assignment" :=
  ⟨by decide, claim_C8 (List.replicate 3 ⟨20, false, 0⟩) [] [] [] [] [] 5 10 0 0 14
    false [] [] 140 (by decide)⟩

/-! ## C10: the day-one literal rates -/

/-- C10 (confirmed).  For every weather table, lookup-table set and
parameter combination, the day-1 record carries the literal constants
`REM = 0.999948211789` and `RDI = 0.000100004821661` — `dayOneRecord`
assigns them independently of every input — and the day-2 update adds
exactly these constants to the `R` and `LeakI` pools. -/
theorem claim_C10 (weather : List WeatherRow) (t1 t2 t3 t4 t5 : List (ℚ × ℚ))
    (po ino rl rc ipo : ℚ) (fung : List SprayEvent) (fresid : List (ℚ × ℚ))
    (dap : ℕ) (hdap : 2 ≤ dap) (recs : List DayRec) (ri : List ℚ) (d : ℕ)
    (hrun : eds weather t1 t2 t3 t4 t5 po ino rl rc ipo false fung fresid dap
      = Except.ok (recs, ri, d)) :
    (∀ r0, recs.get? 0 = some r0 →
      r0.REM = 999948211789 / 1000000000000 ∧
      r0.RDI = 100004821661 / 1000000000000000) ∧
    (∀ r1, recs.get? 1 = some r1 →
      r1.R = 999948211789 / 1000000000000 ∧
      r1.LeakI = 100004821661 / 1000000000000000) := by
  unfold eds at hrun
  by_cases h4 : weather.length < 4
  · rw [if_pos h4] at hrun; exact absurd hrun (by simp)
  · rw [if_neg h4, eds_day_one_false, exceptBind_ok] at hrun
    constructor
    · intro r0 hr0
      obtain ⟨suffix, hsuf⟩ := edsLoop_prefix weather t1 t2 t3 t4 t5 po ino ipo
        dap _ _ _ _ _ _ _ _ _ hrun
      rw [hsuf] at hr0
      simp only [List.cons_append, List.get?_cons_zero, Option.some.injEq] at hr0
      subst hr0
      constructor
      · show (0.999948211789 : ℚ) = 999948211789 / 1000000000000
        norm_num
      · show (0.000100004821661 : ℚ) = 100004821661 / 1000000000000000
        norm_num
    · intro r1 hr1
      cases hrem : weather.length - 4 with
      | zero =>
        rw [hrem] at hrun
        simp only [edsLoop, Except.ok.injEq, Prod.mk.injEq] at hrun
        rw [← hrun.1] at hr1
        simp at hr1
      | succ rem =>
        rw [hrem] at hrun
        simp only [edsLoop] at hrun
        rw [if_neg (by omega : ¬ 2 > dap)] at hrun
        cases hdn : eds_day_n weather t1 t2 t3 t4 t5 po ino ipo 2
            (carryForward (dayOneRecord weather t1 t2 t3 t4 t5 po ino rl rc ipo
              (List.replicate weather.length 0) 1).1
              (dayOneRecord weather t1 t2 t3 t4 t5 po ino rl rc ipo
              (List.replicate weather.length 0) 1).2 2)
            (dayOneRecord weather t1 t2 t3 t4 t5 po ino rl rc ipo
              (List.replicate weather.length 0) 1).2
            [(dayOneRecord weather t1 t2 t3 t4 t5 po ino rl rc ipo
              (List.replicate weather.length 0) 1).1]
            (List.replicate weather.length (0 : ℤ)) with
        | error e => rw [hdn, exceptBind_error] at hrun; exact absurd hrun (by simp)
        | ok out =>
          rw [hdn, exceptBind_ok] at hrun
          obtain ⟨suffix, hsuf⟩ := edsLoop_prefix weather t1 t2 t3 t4 t5 po ino ipo
            dap _ _ _ _ _ _ _ _ _ hrun
          rw [hsuf] at hr1
          simp at hr1
          obtain ⟨REMv, _, hout⟩ := eds_day_n_ok weather t1 t2 t3 t4 t5 po ino ipo
            2 _ _ _ _ out hdn
          subst hr1
          rw [hout]
          constructor
          · show (0 : ℚ) + 0.999948211789 = 999948211789 / 1000000000000
            norm_num
          · show (0 : ℚ) + 0.000100004821661 = 100004821661 / 1000000000000000
            norm_num

/-- Witness for C10 on a concrete 5-day constant-weather run. -/
theorem claim_C10_witness :
    ∃ recs ri d,
      eds (List.replicate 5 ⟨20, false, 0⟩) [(0, 1), (50, 1)] [(0, 1), (50, 1)]
        [(0, 1), (50, 1)] [(0, 0), (100000, 0)] [(0, 1), (7, 1)]
        5 10 0 0 100 false [] [] 140 = Except.ok (recs, ri, d) ∧
      (∀ r0, recs.get? 0 = some r0 →
        r0.REM = 999948211789 / 1000000000000 ∧
        r0.RDI = 100004821661 / 1000000000000000) ∧
      (∀ r1, recs.get? 1 = some r1 →
        r1.R = 999948211789 / 1000000000000 ∧
        r1.LeakI = 100004821661 / 1000000000000000) := by
  cases hrun : eds (List.replicate 5 ⟨20, false, 0⟩) [(0, 1), (50, 1)]
      [(0, 1), (50, 1)] [(0, 1), (50, 1)] [(0, 0), (100000, 0)] [(0, 1), (7, 1)]
      5 10 0 0 100 false [] [] 140 with
  | error e =>
    exfalso
    have hok : (eds (List.replicate 5 ⟨20, false, 0⟩) [(0, 1), (50, 1)]
        [(0, 1), (50, 1)] [(0, 1), (50, 1)] [(0, 0), (100000, 0)] [(0, 1), (7, 1)]
        5 10 0 0 100 false [] [] 140).isOk = true := by decide
    rw [hrun] at hok
    simp [Except.isOk, Except.toBool] at hok
  | ok out =>
    obtain ⟨recs, ri, d⟩ := out
    exact ⟨recs, ri, d, rfl, claim_C10 _ _ _ _ _ _ 5 10 0 0 100 [] [] 140
      (by decide) recs ri d hrun⟩

/-! ## C3: the current-spray efficacy lookup -/

/-- Modelled from the claim (for comparison with the code): the *maximum*
efficacy among the schedule events whose window
`spray_moment ≤ d ≤ spray_moment + 7` contains the day. -/
def maxEffMatching (day : ℚ) (fungicide : List SprayEvent) : Option ℚ :=
  ((fungicide.filter
    (fun e => decide (e.sprayMoment ≤ day ∧ day ≤ e.sprayMoment + 7))).filterMap
    (fun e => e.sprayEff)).max?

/-- C3 counterexample.  With two overlapping windows — events at moments
`10` (efficacy `1/5`) and `17` (efficacy `9/10`) — day `17` lies in both;
the code takes `.iloc[0]`, the *first* matching row (`1/5`), not the
maximum-efficacy one (`9/10`), so the claim's value disagrees with the
code's. -/
theorem claim_C3_counterexample :
    fungEffcCur 17 [⟨1, 10, some (1 / 5)⟩, ⟨2, 17, some (9 / 10)⟩]
      = some (1 / 5) ∧
    maxEffMatching 17 [⟨1, 10, some (1 / 5)⟩, ⟨2, 17, some (9 / 10)⟩]
      = some (9 / 10) ∧
    fungEffcCur 17 [⟨1, 10, some (1 / 5)⟩, ⟨2, 17, some (9 / 10)⟩]
      ≠ maxEffMatching 17 [⟨1, 10, some (1 / 5)⟩, ⟨2, 17, some (9 / 10)⟩] := by
  refine ⟨by decide, by decide, by decide⟩

/-- C3 (corrected).  The day-N current-spray efficacy is the efficacy of
the *first* (in schedule order) event with
`spray_moment ≤ d ≤ spray_moment + 7`; if no event matches, it is `1`;
if the first matching event's efficacy is missing (`NaN`), `FungEffcCur`
itself keeps the `NaN` and only the derived `RcFCur` defaults to `1`. -/
theorem claim_C3 (day : ℚ) (fung : List SprayEvent) :
    (∀ e, fung.find?
        (fun e => decide (e.sprayMoment ≤ day ∧ day ≤ e.sprayMoment + 7)) = some e →
      fungEffcCur day fung = e.sprayEff) ∧
    (fung.find?
        (fun e => decide (e.sprayMoment ≤ day ∧ day ≤ e.sprayMoment + 7)) = none →
      fungEffcCur day fung = some 1) ∧
    (fungEffcCur day fung = none → rcFCur day fung = 1) := by
  refine ⟨?_, ?_, ?_⟩
  · intro e hfind
    induction fung with
    | nil => simp at hfind
    | cons f rest ih =>
      by_cases hf : f.sprayMoment ≤ day ∧ day ≤ f.sprayMoment + 7
      · rw [List.find?_cons_of_pos _ (by simpa using hf)] at hfind
        simp only [Option.some.injEq] at hfind
        subst hfind
        unfold fungEffcCur
        rw [List.filter_cons_of_pos (by simpa using hf)]
      · rw [List.find?_cons_of_neg _ (by simpa using hf)] at hfind
        unfold fungEffcCur
        rw [List.filter_cons_of_neg (by simpa using hf)]
        exact ih hfind
  · intro hfind
    induction fung with
    | nil => rfl
    | cons f rest ih =>
      by_cases hf : f.sprayMoment ≤ day ∧ day ≤ f.sprayMoment + 7
      · rw [List.find?_cons_of_pos _ (by simpa using hf)] at hfind
        simp at hfind
      · rw [List.find?_cons_of_neg _ (by simpa using hf)] at hfind
        unfold fungEffcCur
        rw [List.filter_cons_of_neg (by simpa using hf)]
        exact ih hfind
  · intro hnan
    unfold rcFCur
    rw [hnan]
    rfl

/-- Witness for C3 at the counterexample schedule: the first matching
event on day `17` is the moment-`10` event, and the code returns its
efficacy `1/5`. -/
theorem claim_C3_witness :
    ([⟨1, 10, some (1 / 5)⟩, ⟨2, 17, some (9 / 10)⟩] : List SprayEvent).find?
      (fun e => decide (e.sprayMoment ≤ 17 ∧ 17 ≤ e.sprayMoment + 7))
      = some ⟨1, 10, some (1 / 5)⟩ ∧
    fungEffcCur 17 [⟨1, 10, some (1 / 5)⟩, ⟨2, 17, some (9 / 10)⟩]
      = some (1 / 5) :=
  ⟨by decide, (claim_C3 17 [⟨1, 10, some (1 / 5)⟩, ⟨2, 17, some (9 / 10)⟩]).1
    ⟨1, 10, some (1 / 5)⟩ (by decide)⟩

/-! ## C9: the chained comparison in `get_rc_res` -/

/-- C9 counterexample.  Contrary to the claim, the `1.0` default branch is
*not* reachable for a schedule with exactly one event: pandas
`Series.__bool__` raises unconditionally, for every length, so even the
single-event schedule `[(1, 45, 0.5)]` on day `1` (whose window test is
false, which per the claim should return the default `1.0`) fails with
`ValueError`. -/
theorem claim_C9_counterexample :
    get_rc_res 1 [⟨1, 45, some (1 / 2)⟩] 0 7
      = Except.error "ValueError: The truth value of a Series is ambiguous" ∧
    get_rc_res 1 [⟨1, 45, some (1 / 2)⟩] 0 7 ≠ Except.ok 1 := by
  have h1 : get_rc_res 1 [⟨1, 45, some (1 / 2)⟩] 0 7
      = Except.error "ValueError: The truth value of a Series is ambiguous" := rfl
  exact ⟨h1, fun h => Except.noConfusion (h1.symm.trans h)⟩

/-- C9 (corrected).  For *every* nonempty fungicide schedule — two or more
events as the claim says, but also exactly one — `get_rc_res` fails with
`ValueError` (the chained comparison takes the truth value of a Series),
so the documented `1.0` no-active-spray default is unreachable for every
nonempty schedule; and day-one initialisation of every fungicide run
fails (an empty schedule fails too, with `KeyError` at the `V4` column
assignment). -/
theorem claim_C9 (day : ℚ) (fung : List SprayEvent) (residual interval : ℚ)
    (hne : fung ≠ []) :
    get_rc_res day fung residual interval
      = Except.error "ValueError: The truth value of a Series is ambiguous" ∧
    ∀ (weather : List WeatherRow) (t1 t2 t3 t4 t5 : List (ℚ × ℚ))
      (po ino rl rc ipo : ℚ) (ri : List ℚ) (fung2 : List SprayEvent),
      ∃ msg, eds_day_one weather t1 t2 t3 t4 t5 po ino rl rc ipo ri true fung2
        = Except.error msg := by
  constructor
  · unfold get_rc_res
    rw [if_neg hne]
    rfl
  · intro weather t1 t2 t3 t4 t5 po ino rl rc ipo ri fung2
    cases fung2 with
    | nil => exact ⟨"KeyError: spray_moment", rfl⟩
    | cons f rest =>
      exact ⟨"ValueError: The truth value of a Series is ambiguous", rfl⟩

/-- Witness for C9 at the single-event schedule `[(1, 45, 0.5)]`: the
schedule is nonempty, `get_rc_res` fails, and so does a concrete
fungicide day-one initialisation. -/
theorem claim_C9_witness :
    (([⟨1, 45, some (1 / 2)⟩] : List SprayEvent) ≠ []) ∧
    get_rc_res 1 [⟨1, 45, some (1 / 2)⟩] 0 7
      = Except.error "ValueError: The truth value of a Series is ambiguous" ∧
    ∃ msg, eds_day_one (List.replicate 5 ⟨20, false, 0⟩) [(0, 1), (50, 1)]
      [(0, 1), (50, 1)] [(0, 1), (50, 1)] [(0, 0), (100000, 0)] [(0, 1), (7, 1)]
      5 10 0 0 100 (List.replicate 5 0) true [⟨1, 45, some (1 / 2)⟩]
      = Except.error msg := by
  have h := claim_C9 1 [⟨1, 45, some (1 / 2)⟩] 0 7 (by decide)
  exact ⟨by decide, h.1,
    h.2 (List.replicate 5 ⟨20, false, 0⟩) [(0, 1), (50, 1)] [(0, 1), (50, 1)]
      [(0, 1), (50, 1)] [(0, 0), (100000, 0)] [(0, 1), (7, 1)] 5 10 0 0 100
      (List.replicate 5 0) [⟨1, 45, some (1 / 2)⟩]⟩

/-! ## The per-record conservation invariant (shared by C2 and C5) -/

/-- A successful run result is the `ok` of its own projections. -/
theorem except_eta (x : Except String (List DayRec × List ℚ × ℕ))
    (h : x.isOk = true) : x = Except.ok (runRecords x, runRI x, runDay x) := by
  cases x with
  | error e => simp [Except.isOk, Except.toBool] at h
  | ok out => rfl

/-- Every record accumulated by the day loop satisfies the conservation
shape: either the freshly-recomputed identities
`TOTSITES = HSEN + H + DIS`, `DIS = R + I + CumuLeak + L`,
`Sev = DIS / TOTSITES` hold, or the record is the cutoff-zeroed one. -/
theorem edsLoop_conserved (weather : List WeatherRow)
    (t1 t2 t3 t4 t5 : List (ℚ × ℚ)) (po ino ipo : ℚ) (dap : ℕ) :
    ∀ (rem day : ℕ) (prev : DayRec) (results : List DayRec) (ri : List ℚ)
      (rt : List ℤ) (recs : List DayRec) (riF : List ℚ) (dF : ℕ),
    edsLoop weather t1 t2 t3 t4 t5 po ino ipo dap rem day prev results ri rt
      = Except.ok (recs, riF, dF) →
    (∀ r ∈ results,
      r.TOTSITES = r.HSEN + r.H + r.DIS ∧
      (r.DIS = r.R + r.I + r.CumuLeak + r.L ∧ r.Sev = r.DIS / r.TOTSITES ∨
       r.DIS = 0 ∧ r.R = 0 ∧ r.CumuLeak = 0 ∧ r.TOTSITES = 0 ∧ r.H = 0 ∧
         r.HSEN = 0 ∧ r.Sev = 0)) →
    ∀ r ∈ recs,
      r.TOTSITES = r.HSEN + r.H + r.DIS ∧
      (r.DIS = r.R + r.I + r.CumuLeak + r.L ∧ r.Sev = r.DIS / r.TOTSITES ∨
       r.DIS = 0 ∧ r.R = 0 ∧ r.CumuLeak = 0 ∧ r.TOTSITES = 0 ∧ r.H = 0 ∧
         r.HSEN = 0 ∧ r.Sev = 0) := by
  intro rem
  induction rem with
  | zero =>
    intro day prev results ri rt recs riF dF h hres
    simp only [edsLoop, Except.ok.injEq, Prod.mk.injEq] at h
    intro r hr
    exact hres r (h.1 ▸ hr)
  | succ rem ih =>
    intro day prev results ri rt recs riF dF h hres
    simp only [edsLoop] at h
    by_cases hc : day > dap
    · rw [if_pos hc] at h
      simp only [Except.ok.injEq, Prod.mk.injEq] at h
      intro r hr
      rw [← h.1] at hr
      rcases List.mem_append.mp hr with hmem | hmem
      · exact hres r hmem
      · simp only [List.mem_singleton] at hmem
        subst hmem
        refine ⟨by norm_num [cutoffZero], Or.inr ?_⟩
        exact ⟨rfl, rfl, rfl, rfl, rfl, rfl, rfl⟩
    · rw [if_neg hc] at h
      cases hdn : eds_day_n weather t1 t2 t3 t4 t5 po ino ipo day
          (carryForward prev ri day) ri results rt with
      | error e => rw [hdn, exceptBind_error] at h; exact absurd h (by simp)
      | ok out =>
        rw [hdn, exceptBind_ok] at h
        obtain ⟨REMv, -, hout⟩ := eds_day_n_ok weather t1 t2 t3 t4 t5 po ino ipo
          day _ _ _ _ out hdn
        refine ih (day + 1) out.1 (results ++ [out.1]) out.2.1 out.2.2 recs riF
          dF h ?_
        intro r hr
        rcases List.mem_append.mp hr with hmem | hmem
        · exact hres r hmem
        · simp only [List.mem_singleton] at hmem
          subst hmem
          rw [hout]
          exact ⟨rfl, Or.inl ⟨rfl, rfl⟩⟩

/-- Every record emitted by a successful (non-fungicide) run satisfies the
conservation shape. -/
theorem eds_records_conserved (weather : List WeatherRow)
    (t1 t2 t3 t4 t5 : List (ℚ × ℚ)) (po ino rl rc ipo : ℚ)
    (fung : List SprayEvent) (fresid : List (ℚ × ℚ)) (dap : ℕ)
    (recs : List DayRec) (ri : List ℚ) (d : ℕ)
    (hrun : eds weather t1 t2 t3 t4 t5 po ino rl rc ipo false fung fresid dap
      = Except.ok (recs, ri, d)) :
    ∀ r ∈ recs,
      r.TOTSITES = r.HSEN + r.H + r.DIS ∧
      (r.DIS = r.R + r.I + r.CumuLeak + r.L ∧ r.Sev = r.DIS / r.TOTSITES ∨
       r.DIS = 0 ∧ r.R = 0 ∧ r.CumuLeak = 0 ∧ r.TOTSITES = 0 ∧ r.H = 0 ∧
         r.HSEN = 0 ∧ r.Sev = 0) := by
  unfold eds at hrun
  by_cases h4 : weather.length < 4
  · rw [if_pos h4] at hrun; exact absurd hrun (by simp)
  · rw [if_neg h4, eds_day_one_false, exceptBind_ok] at hrun
    refine edsLoop_conserved weather t1 t2 t3 t4 t5 po ino ipo dap _ _ _ _ _ _
      _ _ _ hrun ?_
    intro r hr
    simp only [List.mem_singleton] at hr
    subst hr
    exact ⟨rfl, Or.inl ⟨rfl, rfl⟩⟩

/-! ## C2: conservation -/

/-- C2 counterexample.  On the concrete cutoff run `runCut` the engine
emits three records, and the final (cutoff) record violates
`DIS = R + I + CumuLeak + L`: all of `DIS`, `R`, `CumuLeak` are zeroed
while `I` and `L` keep their carried-forward values, whose sum is
nonzero.  (`TOTSITES = HSEN + H + DIS` survives the zeroing.) -/
theorem claim_C2_counterexample :
    runCut.isOk = true ∧
    ((runRecords runCut).map
      (fun r => decide (r.DIS = r.R + r.I + r.CumuLeak + r.L)))
      = [true, true, false] ∧
    ((runRecords runCut).map (fun r => decide (r.I + r.L = 0)))
      = [false, false, false] := by
  refine ⟨by decide, by decide, by decide⟩

/-- C2 (corrected).  For every run and every emitted record,
`TOTSITES = HSEN + H + DIS` holds — including the cutoff-zeroed final
record — and `DIS = R + I + CumuLeak + L` holds for every record *except*
the cutoff-zeroed one, in which `DIS`, `R`, `CumuLeak`, `TOTSITES`, `H`
and `HSEN` are all zero while `I` and `L` are carried forward. -/
theorem claim_C2 (weather : List WeatherRow) (t1 t2 t3 t4 t5 : List (ℚ × ℚ))
    (po ino rl rc ipo : ℚ) (fung : List SprayEvent) (fresid : List (ℚ × ℚ))
    (dap : ℕ) (recs : List DayRec) (ri : List ℚ) (d : ℕ)
    (hrun : eds weather t1 t2 t3 t4 t5 po ino rl rc ipo false fung fresid dap
      = Except.ok (recs, ri, d)) :
    ∀ r ∈ recs,
      r.TOTSITES = r.HSEN + r.H + r.DIS ∧
      (r.DIS = r.R + r.I + r.CumuLeak + r.L ∨
       r.DIS = 0 ∧ r.R = 0 ∧ r.CumuLeak = 0 ∧ r.TOTSITES = 0 ∧ r.H = 0 ∧
         r.HSEN = 0) := by
  intro r hr
  obtain ⟨h1, h2⟩ := eds_records_conserved weather t1 t2 t3 t4 t5 po ino rl rc
    ipo fung fresid dap recs ri d hrun r hr
  refine ⟨h1, ?_⟩
  rcases h2 with ⟨hdis, -⟩ | ⟨hd, hR, hC, hT, hH, hS, -⟩
  · exact Or.inl hdis
  · exact Or.inr ⟨hd, hR, hC, hT, hH, hS⟩

/-- Witness for C2 on the concrete run `runBase`. -/
theorem claim_C2_witness :
    eds (mkConstWeather 5) tUnit tUnit tUnit tFlat tAge 5 10 0 0 100 false [] [] 140
      = Except.ok (runRecords runBase, runRI runBase, runDay runBase) ∧
    (∀ r ∈ runRecords runBase,
      r.TOTSITES = r.HSEN + r.H + r.DIS ∧
      (r.DIS = r.R + r.I + r.CumuLeak + r.L ∨
       r.DIS = 0 ∧ r.R = 0 ∧ r.CumuLeak = 0 ∧ r.TOTSITES = 0 ∧ r.H = 0 ∧
         r.HSEN = 0)) := by
  have hrun : runBase = Except.ok (runRecords runBase, runRI runBase, runDay runBase) :=
    except_eta runBase (by decide)
  exact ⟨hrun, claim_C2 (mkConstWeather 5) tUnit tUnit tUnit tFlat tAge
    5 10 0 0 100 [] [] 140 (runRecords runBase) (runRI runBase) (runDay runBase) hrun⟩

/-! ## C5: boundedness of severity -/

/-- C5 counterexample.  `runHot` is a run without NumericDegeneracy —
`H` and `TOTSITES` are nonzero on every emitted day — whose day-2
severity exceeds `1` (the huge but legal `rc_opt_par` drives `H`
negative while `DIS` stays positive). -/
theorem claim_C5_counterexample :
    runHot.isOk = true ∧
    ((runRecords runHot).map (fun r => decide (r.H ≠ 0 ∧ r.TOTSITES ≠ 0)))
      = [true, true] ∧
    ((runRecords runHot).map (fun r => decide (0 ≤ r.Sev ∧ r.Sev ≤ 1)))
      = [true, false] := by
  refine ⟨by decide, by decide, by decide⟩

/-- C5 (corrected).  Excluding exact zeros of `TOTSITES` and `H` is not
enough for `Sev ∈ [0, 1]`: boundedness needs the pools themselves to be
nonnegative.  For every emitted record with `H ≥ 0`, `HSEN ≥ 0`,
`DIS ≥ 0` and `TOTSITES ≠ 0`, indeed `0 ≤ Sev ≤ 1`. -/
theorem claim_C5 (weather : List WeatherRow) (t1 t2 t3 t4 t5 : List (ℚ × ℚ))
    (po ino rl rc ipo : ℚ) (fung : List SprayEvent) (fresid : List (ℚ × ℚ))
    (dap : ℕ) (recs : List DayRec) (ri : List ℚ) (d : ℕ)
    (hrun : eds weather t1 t2 t3 t4 t5 po ino rl rc ipo false fung fresid dap
      = Except.ok (recs, ri, d)) :
    ∀ r ∈ recs, 0 ≤ r.H → 0 ≤ r.HSEN → 0 ≤ r.DIS → r.TOTSITES ≠ 0 →
      0 ≤ r.Sev ∧ r.Sev ≤ 1 := by
  intro r hr hH hHSEN hDIS hT
  obtain ⟨h1, h2⟩ := eds_records_conserved weather t1 t2 t3 t4 t5 po ino rl rc
    ipo fung fresid dap recs ri d hrun r hr
  rcases h2 with ⟨-, hsev⟩ | ⟨-, -, -, hT0, -, -, -⟩
  · have hpos : 0 < r.TOTSITES := by
      rcases lt_or_eq_of_le (by rw [h1]; positivity : (0 : ℚ) ≤ r.TOTSITES) with hp | hp
      · exact hp
      · exact absurd hp.symm hT
    constructor
    · rw [hsev]
      exact div_nonneg hDIS (le_of_lt hpos)
    · rw [hsev]
      rw [div_le_one hpos, h1]
      linarith
  · exact absurd hT0 hT

/-- Witness for C5: the day-one record of `runBase` has nonnegative pools
and nonzero `TOTSITES`, and its severity lies in `[0, 1]`. -/
theorem claim_C5_witness :
    eds (mkConstWeather 5) tUnit tUnit tUnit tFlat tAge 5 10 0 0 100 false [] [] 140
      = Except.ok (runRecords runBase, runRI runBase, runDay runBase) ∧
    ((runRecords runBase).get? 0).isSome = true ∧
    ∀ r0, (runRecords runBase).get? 0 = some r0 →
      0 ≤ r0.H ∧ 0 ≤ r0.HSEN ∧ 0 ≤ r0.DIS ∧ r0.TOTSITES ≠ 0 ∧
      0 ≤ r0.Sev ∧ r0.Sev ≤ 1 := by
  have hrun : runBase = Except.ok (runRecords runBase, runRI runBase, runDay runBase) :=
    except_eta runBase (by decide)
  refine ⟨hrun, by decide, ?_⟩
  intro r0 hr0
  have hmem : r0 ∈ runRecords runBase := List.get?_mem hr0
  have hH : 0 ≤ r0.H := by
    have : ((runRecords runBase).get? 0).all (fun r => decide (0 ≤ r.H)) = true := by decide
    rw [hr0] at this
    simpa using this
  have hHSEN : 0 ≤ r0.HSEN := by
    have : ((runRecords runBase).get? 0).all (fun r => decide (0 ≤ r.HSEN)) = true := by decide
    rw [hr0] at this
    simpa using this
  have hDIS : 0 ≤ r0.DIS := by
    have : ((runRecords runBase).get? 0).all (fun r => decide (0 ≤ r.DIS)) = true := by decide
    rw [hr0] at this
    simpa using this
  have hT : r0.TOTSITES ≠ 0 := by
    have : ((runRecords runBase).get? 0).all (fun r => decide (r.TOTSITES ≠ 0)) = true := by decide
    rw [hr0] at this
    simpa using this
  have := claim_C5 (mkConstWeather 5) tUnit tUnit tUnit tFlat tAge 5 10 0 0 100
    [] [] 140 (runRecords runBase) (runRI runBase) (runDay runBase) hrun r0 hmem
    hH hHSEN hDIS hT
  exact ⟨hH, hHSEN, hDIS, hT, this.1, this.2⟩

/-! ## C4: the days-after-planting cutoff -/

/-- When the cutoff lies inside the remaining iteration range, the loop
stops at day `dap + 1` after appending the zeroed record built from the
carried-forward previous day. -/
theorem edsLoop_cutoff (weather : List WeatherRow)
    (t1 t2 t3 t4 t5 : List (ℚ × ℚ)) (po ino ipo : ℚ) (dap : ℕ) :
    ∀ (rem day : ℕ) (prev : DayRec) (results : List DayRec) (ri : List ℚ)
      (rt : List ℤ) (recs : List DayRec) (riF : List ℚ) (dF : ℕ),
    edsLoop weather t1 t2 t3 t4 t5 po ino ipo dap rem day prev results ri rt
      = Except.ok (recs, riF, dF) →
    2 ≤ day → day ≤ dap + 1 → dap + 2 ≤ day + rem →
    results.length + 1 = day →
    results.getLast? = some prev →
    dF = dap + 1 ∧ recs.length = dap + 1 ∧
    ∃ prevRec, recs.get? (dap - 1) = some prevRec ∧
      recs.get? dap = some (cutoffZero (carryForward prevRec riF (dap + 1))) := by
  intro rem
  induction rem with
  | zero =>
    intro day prev results ri rt recs riF dF h h2 hle hin hlen hlast
    omega
  | succ rem ih =>
    intro day prev results ri rt recs riF dF h h2 hle hin hlen hlast
    simp only [edsLoop] at h
    by_cases hc : day > dap
    · rw [if_pos hc] at h
      simp only [Except.ok.injEq, Prod.mk.injEq] at h
      obtain ⟨hrecs, hri, hd⟩ := h
      have hday : day = dap + 1 := by omega
      have hlen' : results.length = dap := by omega
      refine ⟨by omega, by rw [← hrecs]; simp [hlen'], prev, ?_, ?_⟩
      · rw [← hrecs, List.get?_append (by omega)]
        rw [← hlen', ← List.getLast?_eq_get?]
        exact hlast
      · rw [← hrecs, List.get?_append_right (by omega)]
        rw [hlen', Nat.sub_self, ← hri, ← hday]
        rfl
    · rw [if_neg hc] at h
      cases hdn : eds_day_n weather t1 t2 t3 t4 t5 po ino ipo day
          (carryForward prev ri day) ri results rt with
      | error e => rw [hdn, exceptBind_error] at h; exact absurd h (by simp)
      | ok out =>
        rw [hdn, exceptBind_ok] at h
        exact ih (day + 1) out.1 (results ++ [out.1]) out.2.1 out.2.2 recs riF
          dF h (by omega) (by omega) (by omega)
          (by simp [List.length_append]; omega) (List.getLast?_concat results)

/-- C4 (confirmed).  For every run that completes and whose cutoff lies
inside the simulated range, the first day exceeding `days_after_planting`
produces the final record: the reported final day is `dap + 1`, exactly
`dap + 1` records are emitted (no later day is simulated), and the final
record has every rate/derived field zero while `I`, `L`, `AUDPC`,
`GDUsum` hold the values carried forward from the previous day's
record. -/
theorem claim_C4 (weather : List WeatherRow) (t1 t2 t3 t4 t5 : List (ℚ × ℚ))
    (po ino rl rc ipo : ℚ) (fung : List SprayEvent) (fresid : List (ℚ × ℚ))
    (dap : ℕ) (recs : List DayRec) (ri : List ℚ) (d : ℕ)
    (hdap : 1 ≤ dap) (hlen : dap + 4 ≤ weather.length)
    (hrun : eds weather t1 t2 t3 t4 t5 po ino rl rc ipo false fung fresid dap
      = Except.ok (recs, ri, d)) :
    d = dap + 1 ∧ recs.length = dap + 1 ∧
    ∃ prevRec, recs.get? (dap - 1) = some prevRec ∧
      recs.get? dap = some
        { p_opt := 0, ip_opt := 0, Temp := 0, ip := 0, RRDD := 0,
          I := prevRec.I + (prevRec.RT + prevRec.RLEX - prevRec.REM - prevRec.RDI),
          p := 0,
          L := prevRec.L + ((ri.get? (dap - 1)).getD 0 - prevRec.RT - prevRec.RDL),
          AUDPC := prevRec.AUDPC + prevRec.RAUPC,
          GDUsum := prevRec.GDUsum + prevRec.RTinc,
          H := 0, HSEN := 0, LeakI := 0, LeakL := 0, R := 0, LAT := 0,
          CumuLeak := 0, DIS := 0, TOTSITES := 0, Sev := 0, DVS8 := 0,
          RAUPC := 0, GDU := 0, RTinc := 0, SITEmax := 0, RRG := 0, RG := 0,
          Rc_W := 0, RRLEX := 0, inocp := 0, RcOpt := 0, RcT := 0, RcA := 0,
          Rc := 0, COFR := 0, Agg := 0, RRSEN := 0, RSEN := 0, RLEX := 0,
          RDI := 0, REM := 0, RT := 0, RDL := 0 } := by
  unfold eds at hrun
  by_cases h4 : weather.length < 4
  · omega
  · rw [if_neg h4, eds_day_one_false, exceptBind_ok] at hrun
    obtain ⟨hd, hlen', prevRec, hprev, hcut⟩ := edsLoop_cutoff weather t1 t2 t3
      t4 t5 po ino ipo dap _ _ _ _ _ _ _ _ _ hrun (by omega) (by omega)
      (by omega) (by simp) rfl
    exact ⟨hd, hlen', prevRec, hprev, hcut⟩

/-- Witness for C4 on the concrete cutoff run `runCut` (7 weather days,
cutoff 2): the final day is 3 and the third record is the zeroed one. -/
theorem claim_C4_witness :
    eds (mkConstWeather 7) tUnit tUnit tUnit tFlat tAge 5 10 0 0 100 false [] [] 2
      = Except.ok (runRecords runCut, runRI runCut, runDay runCut) ∧
    (1 ≤ 2 ∧ 2 + 4 ≤ (mkConstWeather 7).length) ∧
    runDay runCut = 2 + 1 ∧ (runRecords runCut).length = 2 + 1 ∧
    ∃ prevRec, (runRecords runCut).get? (2 - 1) = some prevRec ∧
      (runRecords runCut).get? 2 = some
        { p_opt := 0, ip_opt := 0, Temp := 0, ip := 0, RRDD := 0,
          I := prevRec.I + (prevRec.RT + prevRec.RLEX - prevRec.REM - prevRec.RDI),
          p := 0,
          L := prevRec.L + (((runRI runCut).get? (2 - 1)).getD 0 - prevRec.RT - prevRec.RDL),
          AUDPC := prevRec.AUDPC + prevRec.RAUPC,
          GDUsum := prevRec.GDUsum + prevRec.RTinc,
          H := 0, HSEN := 0, LeakI := 0, LeakL := 0, R := 0, LAT := 0,
          CumuLeak := 0, DIS := 0, TOTSITES := 0, Sev := 0, DVS8 := 0,
          RAUPC := 0, GDU := 0, RTinc := 0, SITEmax := 0, RRG := 0, RG := 0,
          Rc_W := 0, RRLEX := 0, inocp := 0, RcOpt := 0, RcT := 0, RcA := 0,
          Rc := 0, COFR := 0, Agg := 0, RRSEN := 0, RSEN := 0, RLEX := 0,
          RDI := 0, REM := 0, RT := 0, RDL := 0 } := by
  have hrun : runCut = Except.ok (runRecords runCut, runRI runCut, runDay runCut) :=
    except_eta runCut (by decide)
  have h := claim_C4 (mkConstWeather 7) tUnit tUnit tUnit tFlat tAge 5 10 0 0 100
    [] [] 2 (runRecords runCut) (runRI runCut) (runDay runCut) (by decide)
    (by decide) hrun
  exact ⟨hrun, ⟨by decide, by decide⟩, h.1, h.2.1, h.2.2⟩

/-! ## C1: the latency queue -/

/-- `ri_series[rt_count == 0].sum()` is `0` when the value series is zero
at every zero slot of the countdown series. -/
theorem maskSum_zero : ∀ (rt : List ℤ) (ri : List ℚ),
    (∀ j, rt.get? j = some 0 → ri.get? j = some 0) → maskSum rt ri = 0
  | [], _, _ => rfl
  | _ :: _, [], _ => rfl
  | t :: ts, v :: vs, h => by
    have htail : ∀ j, ts.get? j = some 0 → vs.get? j = some 0 := by
      intro j hj
      have := h (j + 1) (by simpa using hj)
      simpa using this
    simp only [maskSum]
    rw [maskSum_zero ts vs htail]
    by_cases ht : t = 0
    · have hv : v = 0 := by
        have := h 0 (by simp [ht])
        simpa using this
      rw [if_pos ht, hv, add_zero]
    · rw [if_neg ht, add_zero]

/-- `ri_series[rt_count == 0].sum()` reduces to the single entry `j0` when
the value series is zero at every other zero slot of the countdown
series. -/
theorem maskSum_single : ∀ (rt : List ℤ) (ri : List ℚ) (j0 : ℕ),
    rt.get? j0 = some 0 →
    (∀ j, j ≠ j0 → rt.get? j = some 0 → ri.get? j = some 0) →
    maskSum rt ri = (ri.get? j0).getD 0
  | [], _, j0, h0, _ => by simp at h0
  | _ :: _, [], j0, _, _ => by cases j0 <;> rfl
  | t :: ts, v :: vs, 0, h0, hother => by
    have ht : t = 0 := by simpa using h0
    have hz : ∀ j, ts.get? j = some 0 → vs.get? j = some 0 := by
      intro j hj
      have := hother (j + 1) (Nat.succ_ne_zero j) (by simpa using hj)
      simpa using this
    simp only [maskSum]
    rw [maskSum_zero ts vs hz, if_pos ht, add_zero]
    rfl
  | t :: ts, v :: vs, j0 + 1, h0, hother => by
    have h0t : ts.get? j0 = some 0 := by simpa using h0
    have hothert : ∀ j, j ≠ j0 → ts.get? j = some 0 → vs.get? j = some 0 := by
      intro j hne hj
      have := hother (j + 1) (by omega) (by simpa using hj)
      simpa using this
    simp only [maskSum]
    rw [maskSum_single ts vs j0 h0t hothert]
    by_cases ht : t = 0
    · have hv : v = 0 := by
        have := hother 0 (by omega) (by simp [ht])
        simpa using this
      rw [if_pos ht, hv, zero_add]
      rfl
    · rw [if_neg ht, zero_add]
      rfl

/-- The inductive behaviour of the latency queue through the day loop, for
runs whose every emitted record has a rounded latent period of `5`: the
countdown slots follow `latencySlotSpec`, the `RI` entries of future days
are still `0`, already-written `RI` entries survive unchanged to the end
of the run, and each new record's `RT` is: the day-1 incidence on day 2
(the never-stamped day-1 slot is still `0` then and graduates
immediately), `0` on days 3 to 6, and the day `d-5` incidence from day 7
on. -/
theorem edsLoop_latency (weather : List WeatherRow)
    (t1 t2 t3 t4 t5 : List (ℚ × ℚ)) (po ino ipo : ℚ) (dap N : ℕ) :
    ∀ (rem day : ℕ) (prev : DayRec) (results : List DayRec) (ri : List ℚ)
      (rt : List ℤ) (recs : List DayRec) (riF : List ℚ) (dF : ℕ),
    edsLoop weather t1 t2 t3 t4 t5 po ino ipo dap rem day prev results ri rt
      = Except.ok (recs, riF, dF) →
    (∀ r ∈ recs, pyRound r.p = 5) →
    2 ≤ day →
    results.length + 1 = day →
    day + rem = N - 2 →
    4 ≤ N →
    ri.length = N →
    rt.length = N →
    (∀ j, j < N → rt.get? j = some (latencySlotSpec day j)) →
    (∀ j, day - 1 ≤ j → j < N → ri.get? j = some 0) →
    (∀ j, j < day - 1 → riF.get? j = ri.get? j) ∧
    (∀ i r, day - 1 ≤ i → recs.get? i = some r →
      r.RT = if i = 1 then (riF.get? 0).getD 0
             else if i ≤ 5 then 0
             else (riF.get? (i - 5)).getD 0) := by
  intro rem
  induction rem with
  | zero =>
    intro day prev results ri rt recs riF dF h hround h2 hlen hNrem hN4 hril
      hrtl hrts hriz
    simp only [edsLoop, Except.ok.injEq, Prod.mk.injEq] at h
    obtain ⟨hrecs, hri, -⟩ := h
    constructor
    · intro j _
      rw [hri]
    · intro i r hi hr
      rw [← hrecs] at hr
      rw [List.get?_eq_none.mpr (by omega)] at hr
      exact absurd hr (by simp)
  | succ rem ih =>
    intro day prev results ri rt recs riF dF h hround h2 hlen hNrem hN4 hril
      hrtl hrts hriz
    simp only [edsLoop] at h
    by_cases hc : day > dap
    · rw [if_pos hc] at h
      simp only [Except.ok.injEq, Prod.mk.injEq] at h
      exfalso
      have hmem : cutoffZero (carryForward prev ri day) ∈ recs := by
        rw [← h.1]
        exact List.mem_append.mpr (Or.inr (List.mem_singleton.mpr rfl))
      have h5 := hround _ hmem
      have hp0 : (cutoffZero (carryForward prev ri day)).p = 0 := rfl
      rw [hp0] at h5
      exact absurd h5 (by decide)
    · rw [if_neg hc] at h
      cases hdn : eds_day_n weather t1 t2 t3 t4 t5 po ino ipo day
          (carryForward prev ri day) ri results rt with
      | error e => rw [hdn, exceptBind_error] at h; exact absurd h (by simp)
      | ok out =>
        rw [hdn, exceptBind_ok] at h
        obtain ⟨REMv, -, hout⟩ := eds_day_n_ok weather t1 t2 t3 t4 t5 po ino
          ipo day _ _ _ _ out hdn
        obtain ⟨suffix, hsuf⟩ := edsLoop_prefix weather t1 t2 t3 t4 t5 po ino
          ipo dap _ _ _ _ _ _ _ _ _ h
        have hmem : out.1 ∈ recs := by
          rw [hsuf]
          exact List.mem_append.mpr (Or.inl (List.mem_append.mpr
            (Or.inr (List.mem_singleton.mpr rfl))))
        have hp5 : pyRound out.1.p = 5 := hround _ hmem
        have hri2 : out.2.1 = ri.set (day - 1)
            (out.1.Rc * (carryForward prev ri day).I
              * out.1.COFR ^ (carryForward prev ri day).Agg
              + (if day > 10 then ino else 0)) := by
          rw [hout]; rfl
        have hrt3 : out.2.2
            = (rt.set (day - 1) (pyRound out.1.p)).map (fun t => t - 1) := by
          rw [hout]; rfl
        have hRT : out.1.RT
            = maskSum (rt.set (day - 1) (pyRound out.1.p)) out.2.1 := by
          rw [hout]; rfl
        rw [hp5] at hrt3 hRT
        have hril2 : out.2.1.length = N := by
          rw [hri2, List.length_set]
          exact hril
        have hrtl2 : out.2.2.length = N := by
          rw [hrt3, List.length_map, List.length_set]
          exact hrtl
        have hrts2 : ∀ j, j < N →
            out.2.2.get? j = some (latencySlotSpec (day + 1) j) := by
          intro j hj
          rw [hrt3, List.get?_map]
          by_cases hjd : j = day - 1
          · subst hjd
            rw [List.get?_set_eq_of_lt 5 (by omega)]
            simp only [Option.map_some', Option.some.injEq]
            unfold latencySlotSpec
            split_ifs <;> omega
          · rw [List.get?_set_ne 5 rt (Ne.symm hjd)]
            rw [hrts j hj]
            simp only [Option.map_some', Option.some.injEq]
            unfold latencySlotSpec
            split_ifs <;> omega
        have hriz2 : ∀ j, day ≤ j → j < N → out.2.1.get? j = some 0 := by
          intro j hj hjN
          rw [hri2, List.get?_set_ne _ _ (by omega : day - 1 ≠ j)]
          exact hriz j (by omega) hjN
        obtain ⟨hstab2, hrt2⟩ := ih (day + 1) out.1 (results ++ [out.1])
          out.2.1 out.2.2 recs riF dF h hround (by omega)
          (by simp only [List.length_append, List.length_cons,
            List.length_nil]; omega)
          (by omega) hN4 hril2 hrtl2 hrts2 hriz2
        constructor
        · intro j hj
          rw [hstab2 j (by omega), hri2,
            List.get?_set_ne _ _ (by omega : day - 1 ≠ j)]
        · intro i r hi hr
          by_cases hieq : i = day - 1
          · subst hieq
            have hrr : r = out.1 := by
              rw [hsuf] at hr
              rw [List.get?_append (by
                simp only [List.length_append, List.length_cons,
                  List.length_nil]
                omega)] at hr
              rw [List.get?_append_right (by omega : results.length ≤ day - 1)] at hr
              rw [(by omega : day - 1 - results.length = 0)] at hr
              simpa using hr.symm
            subst hrr
            rw [hRT]
            by_cases hd2 : day = 2
            · subst hd2
              rw [maskSum_single _ _ 0
                (by
                  rw [List.get?_set_ne _ _ (by omega : 2 - 1 ≠ 0),
                    hrts 0 (by omega)]
                  decide)
                (by
                  intro j hj0 hjz
                  have hjN : j < N := by
                    obtain ⟨hlt, -⟩ := List.get?_eq_some.mp hjz
                    rw [List.length_set, hrtl] at hlt
                    exact hlt
                  by_cases hj1 : j = 2 - 1
                  · subst hj1
                    rw [List.get?_set_eq_of_lt 5 (by omega)] at hjz
                    exact absurd hjz (by decide)
                  · rw [hri2, List.get?_set_ne _ _ (Ne.symm hj1)]
                    exact hriz j (by omega) hjN)]
              rw [if_pos (by norm_num : (2 : ℕ) - 1 = 1), hstab2 0 (by omega),
                hri2, List.get?_set_ne _ _ (by omega : 2 - 1 ≠ 0)]
            · by_cases hd7 : 7 ≤ day
              · rw [maskSum_single _ _ (day - 6)
                  (by
                    rw [List.get?_set_ne _ _ (by omega : day - 1 ≠ day - 6),
                      hrts (day - 6) (by omega)]
                    simp only [Option.some.injEq]
                    unfold latencySlotSpec
                    split_ifs <;> omega)
                  (by
                    intro j hj6 hjz
                    have hjN : j < N := by
                      obtain ⟨hlt, -⟩ := List.get?_eq_some.mp hjz
                      rw [List.length_set, hrtl] at hlt
                      exact hlt
                    by_cases hj1 : j = day - 1
                    · subst hj1
                      rw [List.get?_set_eq_of_lt 5 (by omega)] at hjz
                      exact absurd hjz (by decide)
                    · exfalso
                      rw [List.get?_set_ne _ _ (Ne.symm hj1),
                        hrts j hjN] at hjz
                      simp only [Option.some.injEq] at hjz
                      unfold latencySlotSpec at hjz
                      split_ifs at hjz <;> omega)]
                rw [if_neg (by omega : ¬ day - 1 = 1),
                  if_neg (by omega : ¬ day - 1 ≤ 5),
                  (by omega : day - 1 - 5 = day - 6),
                  hstab2 (day - 6) (by omega), hri2,
                  List.get?_set_ne _ _ (by omega : day - 1 ≠ day - 6)]
              · rw [maskSum_zero _ _
                  (by
                    intro j hjz
                    have hjN : j < N := by
                      obtain ⟨hlt, -⟩ := List.get?_eq_some.mp hjz
                      rw [List.length_set, hrtl] at hlt
                      exact hlt
                    by_cases hj1 : j = day - 1
                    · subst hj1
                      rw [List.get?_set_eq_of_lt 5 (by omega)] at hjz
                      exact absurd hjz (by decide)
                    · exfalso
                      rw [List.get?_set_ne _ _ (Ne.symm hj1),
                        hrts j hjN] at hjz
                      simp only [Option.some.injEq] at hjz
                      unfold latencySlotSpec at hjz
                      split_ifs at hjz <;> omega)]
                rw [if_neg (by omega : ¬ day - 1 = 1),
                  if_pos (by omega : day - 1 ≤ 5)]
          · exact hrt2 i r (by omega) hr

/-- C1 counterexample.  `runTen` simulates seven days with the rounded
latent period equal to 5 on every day, yet `RT(2) = RI(1) = 1 ≠ 0`
(the claim requires `RT(d) = 0` for `d ≤ 5`) and `RT(6) = 0 ≠ 1 = RI(1)`
(the claim requires `RT(6) = RI(1)`). -/
theorem claim_C1_counterexample :
    runTen.isOk = true ∧
    ((runRecords runTen).map (fun r => pyRound r.p)) = [5, 5, 5, 5, 5, 5, 5] ∧
    (runRI runTen).get? 0 = some 1 ∧
    ((runRecords runTen).map (fun r => r.RT)) = [0, 1, 0, 0, 0, 0, 0] := by
  refine ⟨by decide, by decide, by decide, by decide⟩

/-- C1 (corrected).  For every completed run in which every emitted
record's rounded latent period is 5, the latency queue satisfies:
`RT(1) = 0`; `RT(2) = RI(1)` (the day-1 slot of `rt_count` is never
stamped, so that cohort graduates immediately); `RT(d) = 0` for
`3 ≤ d ≤ 6` (in particular the day-1 cohort never graduates at `d = 6`
as the claim stated); and `RT(d) = RI(d-5)` only from `d = 7` on.
(Positions are 0-based: record `i` is day `i+1`.) -/
theorem claim_C1 (weather : List WeatherRow) (t1 t2 t3 t4 t5 : List (ℚ × ℚ))
    (po ino rl rc ipo : ℚ) (fung : List SprayEvent) (fresid : List (ℚ × ℚ))
    (dap : ℕ) (recs : List DayRec) (riF : List ℚ) (d : ℕ)
    (hrun : eds weather t1 t2 t3 t4 t5 po ino rl rc ipo false fung fresid dap
      = Except.ok (recs, riF, d))
    (hround : ∀ r ∈ recs, pyRound r.p = 5) :
    (∀ r, recs.get? 0 = some r → r.RT = 0) ∧
    (∀ r, recs.get? 1 = some r → r.RT = (riF.get? 0).getD 0) ∧
    (∀ i r, 2 ≤ i → i ≤ 5 → recs.get? i = some r → r.RT = 0) ∧
    (∀ i r, 6 ≤ i → recs.get? i = some r → r.RT = (riF.get? (i - 5)).getD 0) := by
  unfold eds at hrun
  by_cases h4 : weather.length < 4
  · rw [if_pos h4] at hrun
    exact absurd hrun (by simp)
  · rw [if_neg h4, eds_day_one_false, exceptBind_ok] at hrun
    have hri1 : (dayOneRecord weather t1 t2 t3 t4 t5 po ino rl rc ipo
        (List.replicate weather.length 0) 1).2
        = (List.replicate weather.length (0 : ℚ)).set 0
          ((dayOneRecord weather t1 t2 t3 t4 t5 po ino rl rc ipo
            (List.replicate weather.length 0) 1).1.Rc
          * (dayOneRecord weather t1 t2 t3 t4 t5 po ino rl rc ipo
            (List.replicate weather.length 0) 1).1.I
          * (dayOneRecord weather t1 t2 t3 t4 t5 po ino rl rc ipo
            (List.replicate weather.length 0) 1).1.COFR
            ^ (dayOneRecord weather t1 t2 t3 t4 t5 po ino rl rc ipo
            (List.replicate weather.length 0) 1).1.Agg + 1) := rfl
    obtain ⟨hstab, hrt⟩ := edsLoop_latency weather t1 t2 t3 t4 t5 po ino ipo
      dap weather.length _ _ _ _ _ _ _ _ _ hrun hround (by omega) (by simp)
      (by omega) (by omega)
      (by rw [hri1, List.length_set, List.length_replicate])
      (by rw [List.length_replicate])
      (by
        intro j hj
        rw [List.get?_eq_getElem?]
        simp only [List.getElem?_replicate, hj, if_pos]
        simp only [Option.some.injEq]
        unfold latencySlotSpec
        split_ifs <;> omega)
      (by
        intro j hj1 hjN
        rw [hri1, List.get?_set_ne _ _ (by omega : 0 ≠ j),
          List.get?_eq_getElem?]
        simp [List.getElem?_replicate, hjN])
    obtain ⟨suffix, hsuf⟩ := edsLoop_prefix weather t1 t2 t3 t4 t5 po ino ipo
      dap _ _ _ _ _ _ _ _ _ hrun
    refine ⟨?_, ?_, ?_, ?_⟩
    · intro r hr
      rw [hsuf] at hr
      simp only [List.cons_append, List.nil_append, List.get?_cons_zero,
        Option.some.injEq] at hr
      rw [← hr]
      rfl
    · intro r hr
      have := hrt 1 r (by omega) hr
      simpa using this
    · intro i r hi2 hi5 hr
      have := hrt i r (by omega) hr
      rw [if_neg (by omega : ¬ i = 1), if_pos hi5] at this
      exact this
    · intro i r hi6 hr
      have := hrt i r (by omega) hr
      rw [if_neg (by omega : ¬ i = 1), if_neg (by omega : ¬ i ≤ 5)] at this
      exact this

/-- Witness for C1 on the concrete run `runTen`: all rounded latent
periods are 5, and record 6 (day 7) has `RT = RI(2)`. -/
theorem claim_C1_witness :
    eds (mkConstWeather 10) tUnit tUnit tUnit tFlat tAge 5 10 0 0 100 false [] [] 140
      = Except.ok (runRecords runTen, runRI runTen, runDay runTen) ∧
    (∀ r ∈ runRecords runTen, pyRound r.p = 5) ∧
    (∀ r, (runRecords runTen).get? 6 = some r →
      r.RT = ((runRI runTen).get? 1).getD 0) := by
  have hrun : runTen = Except.ok (runRecords runTen, runRI runTen, runDay runTen) :=
    except_eta runTen (by decide)
  have hround : ∀ r ∈ runRecords runTen, pyRound r.p = 5 := by decide
  refine ⟨hrun, hround, ?_⟩
  intro r hr
  exact (claim_C1 (mkConstWeather 10) tUnit tUnit tUnit tFlat tAge 5 10 0 0 100
    [] [] 140 (runRecords runTen) (runRI runTen) (runDay runTen) hrun
    hround).2.2.2 6 r (by omega) hr

end EDS
